import Mathlib

/-!
Shallow embedding of `src/serial_manager.py` (class `SerialManager`).

The Python module guards a single optional serial handle (`self._ser`)
with a non-reentrant `threading.Lock` (`self._lock`).  We model:

* `SerialConfig` — the dataclass with its defaults (`baudrate = 115200`,
  `timeout_s = 0.1`, rendered as the exact rational `1/10` since the
  value is carried, never computed with);
* `PortHandle` — a `serial.Serial` object: the arguments it was opened
  with plus its `is_open` flag;
* `SerialManager` — the object state: `cfg`, `_ser` as `Option
  PortHandle`, and whether `_lock` is currently held;
* `Res α` — the outcome of running a method body: a normal return, a
  raised Python exception, or `deadlock` (the thread blocks forever,
  which is what acquiring a held non-reentrant `threading.Lock` from the
  same thread does);
* `withLock` — Python's `with self._lock:` block: blocks if the lock is
  held, otherwise runs the body with the lock held and releases it on
  both normal and exceptional exit.

Environment interaction (the pyserial library, the OS) is passed in
explicitly: `hasSerial` models the module-level `HAS_SERIAL` flag,
`Except`-valued arguments model what the underlying device call would
do (`serial.Serial(...)` succeeding or raising, `close()` raising,
`comports()` enumeration, raw reads/writes).  A successful
`serial.Serial(port=...)` yields an open handle, per pyserial: giving a
port at construction opens it immediately.
-/

structure SerialConfig where
  baudrate : Int := 115200
  timeout_s : ℚ := mkRat 1 10
deriving DecidableEq

structure PortHandle where
  port : String
  baudrate : Int
  timeout_s : ℚ
  is_open : Bool
deriving DecidableEq

/-- Python exceptions raised by the module.  `runtimeError` and
`valueError` carry their message; `serialException` is an exception
propagated from the underlying serial library, carrying its cause
description; `attributeError` models attribute access on `None`. -/
inductive PyExc where
  | runtimeError (msg : String)
  | valueError (msg : String)
  | serialException (cause : String)
  | attributeError (msg : String)
deriving DecidableEq

structure SerialManager where
  cfg : SerialConfig
  ser : Option PortHandle
  lockHeld : Bool
deriving DecidableEq

/-- Outcome of executing a method body from a given state: normal return
with a value and the final state, a raised exception with the state at
the raise, or blocking forever on the lock. -/
inductive Res (α : Type) where
  | ok : α → SerialManager → Res α
  | exn : PyExc → SerialManager → Res α
  | deadlock : Res α
deriving DecidableEq

/-- `with self._lock:` for a non-reentrant `threading.Lock`, executed by
a single thread: if the lock is already held the acquire blocks forever;
otherwise the body runs with the lock held and the lock is released on
normal return and on exception alike. -/
def withLock {α : Type} (s : SerialManager) (body : SerialManager → Res α) : Res α :=
  if s.lockHeld then Res.deadlock
  else
    match body { s with lockHeld := true } with
    | Res.ok a s' => Res.ok a { s' with lockHeld := false }
    | Res.exn e s' => Res.exn e { s' with lockHeld := false }
    | Res.deadlock => Res.deadlock

/-- `SerialManager.__init__`: `self.cfg = cfg or SerialConfig()` (a
dataclass instance is truthy, `None` is falsy), `self._ser = None`, and
a fresh, unheld lock. -/
def SerialManager.init (cfg : Option SerialConfig) : SerialManager :=
  { cfg := cfg.getD {}, ser := none, lockHeld := false }

/-- Property `has_serial`: returns the module-level `HAS_SERIAL` flag. -/
def SerialManager.has_serial (_ : SerialManager) (hasSerial : Bool) : Bool :=
  hasSerial

/-- The check `self._ser is not None and getattr(self._ser, "is_open",
False)`, which appears verbatim in both `is_connected` and `connect`. -/
def serPresentOpen (o : Option PortHandle) : Bool :=
  match o with
  | none => false
  | some h => h.is_open

/-- Property `is_connected`: under the lock, `self._ser is not None and
getattr(self._ser, "is_open", False)`. -/
def SerialManager.is_connected (s : SerialManager) : Res Bool :=
  withLock s fun s' =>
    Res.ok (serPresentOpen s'.ser) s'

/-- `connect(port)`: raise `RuntimeError("pyserial is not installed.")`
if `HAS_SERIAL` is false; raise `ValueError("Port is empty.")` if the
port string is empty; otherwise, under the lock, return if a handle is
present and open, else evaluate `serial.Serial(port=port,
baudrate=self.cfg.baudrate, timeout=self.cfg.timeout_s)` — `openRes`
says whether that constructor raises (with its cause) or succeeds, in
which case the new open handle is stored in `self._ser`. -/
def SerialManager.connect (s : SerialManager) (hasSerial : Bool) (port : String)
    (openRes : Except String Unit) : Res Unit :=
  if !hasSerial then Res.exn (PyExc.runtimeError "pyserial is not installed.") s
  else if port = "" then Res.exn (PyExc.valueError "Port is empty.") s
  else withLock s fun s' =>
    if serPresentOpen s'.ser then
      Res.ok () s'
    else
      match openRes with
      | Except.error cause => Res.exn (PyExc.serialException cause) s'
      | Except.ok () =>
          Res.ok () { s' with
            ser := some { port := port,
                          baudrate := s'.cfg.baudrate,
                          timeout_s := s'.cfg.timeout_s,
                          is_open := true } }

/-- `disconnect()`: under the lock, if a handle is present, try to close
it, swallowing any exception (`closeRaises` says whether `close()`
raises); then set `self._ser = None` unconditionally. -/
def SerialManager.disconnect (s : SerialManager) (closeRaises : Bool) : Res Unit :=
  withLock s fun s' =>
    let afterClose : SerialManager :=
      match s'.ser with
      | none => s'
      | some h =>
          if closeRaises then s'
          else { s' with ser := some { h with is_open := false } }
    Res.ok () { afterClose with ser := none }

/-- `list_ports_blocking()`: return `[]` if `HAS_SERIAL` is false; else
`[p.device for p in list_ports.comports()]`, returning `[]` if the
enumeration raises.  `env` is what `comports()` does: the device names
it yields, or the exception cause.  The method never touches the lock. -/
def SerialManager.list_ports_blocking (s : SerialManager) (hasSerial : Bool)
    (env : Except String (List String)) : Res (List String) :=
  if !hasSerial then Res.ok [] s
  else
    match env with
    | Except.error _ => Res.ok [] s
    | Except.ok devices => Res.ok devices s

/-- `write(data)`: under the lock, evaluate the `is_connected` property
(which itself takes the lock); if it is false raise
`RuntimeError("Not connected.")`, else call `self._ser.write(data)`
(`io` says whether the device write raises). -/
def SerialManager.write (s : SerialManager) (data : List Nat)
    (io : Except String Unit) : Res Unit :=
  withLock s fun s' =>
    match s'.is_connected with
    | Res.deadlock => Res.deadlock
    | Res.exn e s'' => Res.exn e s''
    | Res.ok conn s'' =>
        if !conn then Res.exn (PyExc.runtimeError "Not connected.") s''
        else
          match s''.ser with
          | none => Res.exn (PyExc.attributeError "NoneType object has no attribute write") s''
          | some _ =>
              match io with
              | Except.error cause => Res.exn (PyExc.serialException cause) s''
              | Except.ok () => Res.ok () s''

/-- `read(n)`: under the lock, evaluate the `is_connected` property
(which itself takes the lock); if it is false raise
`RuntimeError("Not connected.")`, else return `self._ser.read(n)`
(`io` says whether the device read raises, or which bytes it yields). -/
def SerialManager.read (s : SerialManager) (n : Nat)
    (io : Except String (List Nat)) : Res (List Nat) :=
  withLock s fun s' =>
    match s'.is_connected with
    | Res.deadlock => Res.deadlock
    | Res.exn e s'' => Res.exn e s''
    | Res.ok conn s'' =>
        if !conn then Res.exn (PyExc.runtimeError "Not connected.") s''
        else
          match s''.ser with
          | none => Res.exn (PyExc.attributeError "NoneType object has no attribute read") s''
          | some _ =>
              match io with
              | Except.error cause => Res.exn (PyExc.serialException cause) s''
              | Except.ok bytes => Res.ok bytes s''

/-- One public call on a `SerialManager`, together with the behaviour of
the environment during that call. -/
inductive SMOp where
  | connect (port : String) (openRes : Except String Unit)
  | disconnect (closeRaises : Bool)
  | list_ports (env : Except String (List String))
  | write (data : List Nat) (io : Except String Unit)
  | read (n : Nat) (io : Except String (List Nat))
  | is_connected
  | has_serial

/-- The state a method run leaves behind, if it terminates (normally or
with an exception); `none` if it blocks forever. -/
def resState {α : Type} : Res α → Option SerialManager
  | Res.ok _ s => some s
  | Res.exn _ s => some s
  | Res.deadlock => none

/-- One public call as a state transition.  `HAS_SERIAL` is fixed for
the whole process (it is set once at module import), so it parametrises
the run, not the individual call. -/
def smStep (hasSerial : Bool) (s : SerialManager) : SMOp → Option SerialManager
  | SMOp.connect port openRes => resState (s.connect hasSerial port openRes)
  | SMOp.disconnect closeRaises => resState (s.disconnect closeRaises)
  | SMOp.list_ports env => resState (s.list_ports_blocking hasSerial env)
  | SMOp.write data io => resState (s.write data io)
  | SMOp.read n io => resState (s.read n io)
  | SMOp.is_connected => resState s.is_connected
  | SMOp.has_serial => some s

/-- States reachable from a freshly constructed `SerialManager` by any
sequence of public calls, under any environment behaviour. -/
inductive Reachable (hasSerial : Bool) : SerialManager → Prop where
  | init : ∀ cfg, Reachable hasSerial (SerialManager.init cfg)
  | step : ∀ s op s', Reachable hasSerial s → smStep hasSerial s op = some s' →
      Reachable hasSerial s'

/-!
Helper lemmas about the individual methods, shared by the claim
theorems below.
-/

theorem is_connected_locked (s : SerialManager) (h : s.lockHeld = true) :
    s.is_connected = Res.deadlock := by
  simp [SerialManager.is_connected, withLock, h]

theorem write_deadlock (s : SerialManager) (data : List Nat) (io : Except String Unit) :
    s.write data io = Res.deadlock := by
  by_cases h : s.lockHeld
  · simp [SerialManager.write, withLock, h]
  · simp [SerialManager.write, withLock, h,
      is_connected_locked { s with lockHeld := true } rfl]

theorem read_deadlock (s : SerialManager) (n : Nat) (io : Except String (List Nat)) :
    s.read n io = Res.deadlock := by
  by_cases h : s.lockHeld
  · simp [SerialManager.read, withLock, h]
  · simp [SerialManager.read, withLock, h,
      is_connected_locked { s with lockHeld := true } rfl]

theorem is_connected_eq (s : SerialManager) (hlock : s.lockHeld = false) :
    s.is_connected = Res.ok (serPresentOpen s.ser) s := by
  obtain ⟨cfg, ser, lk⟩ := s
  subst hlock
  simp [SerialManager.is_connected, withLock]

theorem disconnect_eq (s : SerialManager) (closeRaises : Bool) (hlock : s.lockHeld = false) :
    s.disconnect closeRaises = Res.ok () { s with ser := none } := by
  obtain ⟨cfg, ser, lk⟩ := s
  subst hlock
  cases ser <;> cases closeRaises <;> simp [SerialManager.disconnect, withLock]

theorem connect_no_capability (s : SerialManager) (port : String)
    (openRes : Except String Unit) :
    s.connect false port openRes
      = Res.exn (PyExc.runtimeError "pyserial is not installed.") s := rfl

theorem connect_empty_port (s : SerialManager) (openRes : Except String Unit) :
    s.connect true "" openRes
      = Res.exn (PyExc.valueError "Port is empty.") s := rfl

theorem connect_already (s : SerialManager) (port : String) (openRes : Except String Unit)
    (hlock : s.lockHeld = false) (hport : port ≠ "")
    (hch : serPresentOpen s.ser = true) :
    s.connect true port openRes = Res.ok () s := by
  obtain ⟨cfg, ser, lk⟩ := s
  subst hlock
  simp [SerialManager.connect, withLock, hport, serPresentOpen] at hch ⊢
  simp [hch]

theorem connect_opens (s : SerialManager) (port : String)
    (hlock : s.lockHeld = false) (hport : port ≠ "")
    (hch : serPresentOpen s.ser = false) :
    s.connect true port (Except.ok ())
      = Res.ok () { s with
          ser := some { port := port,
                        baudrate := s.cfg.baudrate,
                        timeout_s := s.cfg.timeout_s,
                        is_open := true } } := by
  obtain ⟨cfg, ser, lk⟩ := s
  subst hlock
  simp [SerialManager.connect, withLock, hport] at hch ⊢
  simp [hch]

theorem connect_open_fails (s : SerialManager) (port cause : String)
    (hlock : s.lockHeld = false) (hport : port ≠ "")
    (hch : serPresentOpen s.ser = false) :
    s.connect true port (Except.error cause)
      = Res.exn (PyExc.serialException cause) s := by
  obtain ⟨cfg, ser, lk⟩ := s
  subst hlock
  simp [SerialManager.connect, withLock, hport] at hch ⊢
  simp [hch]

/-- The handle invariant: between public calls the lock is free, and the
single handle slot is either absent or holds an open handle. -/
def handleInv (s : SerialManager) : Prop :=
  s.lockHeld = false ∧ (s.ser = none ∨ ∃ h, s.ser = some h ∧ h.is_open = true)

theorem reachable_handleInv (hs : Bool) (s : SerialManager)
    (hr : Reachable hs s) : handleInv s := by
  induction hr with
  | init cfg => exact ⟨rfl, Or.inl rfl⟩
  | step t op t' hr hstep ih =>
    obtain ⟨hlock, hser⟩ := ih
    cases op with
    | connect port openRes =>
      by_cases hhs : hs
      · subst hhs
        by_cases hp : port = ""
        · subst hp
          rw [smStep, connect_empty_port] at hstep
          simp [resState] at hstep
          exact hstep ▸ ⟨hlock, hser⟩
        · by_cases hch : serPresentOpen t.ser
          · rw [smStep, connect_already t port openRes hlock hp hch] at hstep
            simp [resState] at hstep
            exact hstep ▸ ⟨hlock, hser⟩
          · cases openRes with
            | error cause =>
              rw [smStep, connect_open_fails t port cause hlock hp
                (Bool.not_eq_true _ ▸ hch)] at hstep
              simp [resState] at hstep
              exact hstep ▸ ⟨hlock, hser⟩
            | ok u =>
              cases u
              rw [smStep, connect_opens t port hlock hp
                (Bool.not_eq_true _ ▸ hch)] at hstep
              simp [resState] at hstep
              subst hstep
              exact ⟨hlock, Or.inr ⟨_, rfl, rfl⟩⟩
      · simp only [Bool.not_eq_true] at hhs
        subst hhs
        rw [smStep, connect_no_capability] at hstep
        simp [resState] at hstep
        exact hstep ▸ ⟨hlock, hser⟩
    | disconnect closeRaises =>
      rw [smStep, disconnect_eq t closeRaises hlock] at hstep
      simp [resState] at hstep
      subst hstep
      exact ⟨hlock, Or.inl rfl⟩
    | list_ports env =>
      rw [smStep] at hstep
      cases hs <;> rcases env with cause | devices <;>
        simp [SerialManager.list_ports_blocking, resState] at hstep <;>
        exact hstep ▸ ⟨hlock, hser⟩
    | write data io =>
      rw [smStep, write_deadlock] at hstep
      simp [resState] at hstep
    | read n io =>
      rw [smStep, read_deadlock] at hstep
      simp [resState] at hstep
    | is_connected =>
      rw [smStep, is_connected_eq t hlock] at hstep
      simp [resState] at hstep
      exact hstep ▸ ⟨hlock, hser⟩
    | has_serial =>
      rw [smStep] at hstep
      simp at hstep
      exact hstep ▸ ⟨hlock, hser⟩

theorem reachable_noSerial (s : SerialManager) (hr : Reachable false s) :
    s.ser = none ∧ s.lockHeld = false := by
  induction hr with
  | init cfg => exact ⟨rfl, rfl⟩
  | step t op t' hr hstep ih =>
    obtain ⟨hser, hlock⟩ := ih
    cases op with
    | connect port openRes =>
      rw [smStep, connect_no_capability] at hstep
      simp [resState] at hstep
      exact hstep ▸ ⟨hser, hlock⟩
    | disconnect closeRaises =>
      rw [smStep, disconnect_eq t closeRaises hlock] at hstep
      simp [resState] at hstep
      subst hstep
      exact ⟨rfl, hlock⟩
    | list_ports env =>
      rw [smStep] at hstep
      simp [SerialManager.list_ports_blocking, resState] at hstep
      exact hstep ▸ ⟨hser, hlock⟩
    | write data io =>
      rw [smStep, write_deadlock] at hstep
      simp [resState] at hstep
    | read n io =>
      rw [smStep, read_deadlock] at hstep
      simp [resState] at hstep
    | is_connected =>
      rw [smStep, is_connected_eq t hlock] at hstep
      simp [resState] at hstep
      exact hstep ▸ ⟨hser, hlock⟩
    | has_serial =>
      rw [smStep] at hstep
      simp at hstep
      exact hstep ▸ ⟨hser, hlock⟩

theorem smStep_cfg (hs : Bool) (s : SerialManager) (op : SMOp) (s' : SerialManager)
    (h : smStep hs s op = some s') : s'.cfg = s.cfg := by
  cases op with
  | connect port openRes =>
    by_cases hhs : hs
    · subst hhs
      by_cases hp : port = ""
      · subst hp
        rw [smStep, connect_empty_port] at h
        simp [resState] at h
        subst h; rfl
      · by_cases hlk : s.lockHeld
        · rw [smStep] at h
          simp [SerialManager.connect, withLock, hp, hlk, resState] at h
        · have hlock : s.lockHeld = false := by simpa using hlk
          by_cases hch : serPresentOpen s.ser
          · rw [smStep, connect_already s port openRes hlock hp hch] at h
            simp [resState] at h
            subst h; rfl
          · cases openRes with
            | error cause =>
              rw [smStep, connect_open_fails s port cause hlock hp
                (by simpa using hch)] at h
              simp [resState] at h
              subst h; rfl
            | ok u =>
              cases u
              rw [smStep, connect_opens s port hlock hp (by simpa using hch)] at h
              simp [resState] at h
              subst h; rfl
    · simp only [Bool.not_eq_true] at hhs
      subst hhs
      rw [smStep, connect_no_capability] at h
      simp [resState] at h
      subst h; rfl
  | disconnect closeRaises =>
    by_cases hlk : s.lockHeld
    · rw [smStep] at h
      simp [SerialManager.disconnect, withLock, hlk, resState] at h
    · rw [smStep, disconnect_eq s closeRaises (by simpa using hlk)] at h
      simp [resState] at h
      subst h; rfl
  | list_ports env =>
    rw [smStep] at h
    cases hs <;> rcases env with cause | devices <;>
      simp [SerialManager.list_ports_blocking, resState] at h <;>
      (subst h; rfl)
  | write data io =>
    rw [smStep, write_deadlock] at h
    simp [resState] at h
  | read n io =>
    rw [smStep, read_deadlock] at h
    simp [resState] at h
  | is_connected =>
    by_cases hlk : s.lockHeld
    · rw [smStep, is_connected_locked s hlk] at h
      simp [resState] at h
    · rw [smStep, is_connected_eq s (by simpa using hlk)] at h
      simp [resState] at h
      subst h; rfl
  | has_serial =>
    simp only [smStep, Option.some.injEq] at h
    subst h
    rfl

/-!
Error-kind classifiers.  The spec names its error taxonomy
(`CapabilityUnavailable`, `InvalidArgument`, `NotConnected`,
`DeviceOpenError`); in the Python module these are, respectively,
`RuntimeError("pyserial is not installed.")`, `ValueError("Port is
empty.")`, `RuntimeError("Not connected.")`, and the propagated
exception of the underlying `serial.Serial` constructor.
-/

def isInvalidArgument : PyExc → Bool
  | PyExc.valueError _ => true
  | _ => false

def isCapabilityUnavailable : PyExc → Bool
  | PyExc.runtimeError msg => msg == "pyserial is not installed."
  | _ => false

/-- Whether a method outcome is a raised exception of the given kind. -/
def failsWith {α : Type} (r : Res α) (kind : PyExc → Bool) : Bool :=
  match r with
  | Res.exn e _ => kind e
  | _ => false

/-- A state with one open handle on `"COM3"`, reachable from a fresh
manager by one successful `connect`; used as concrete witness input. -/
def sConnected : SerialManager :=
  { cfg := {},
    ser := some { port := "COM3", baudrate := 115200, timeout_s := mkRat 1 10, is_open := true },
    lockHeld := false }

/-- Claim C1 (code bug): after `disconnect()`, `is_connected` is false as
the claim says, but a subsequent `write`/`read` does not fail with
`NotConnected`: it blocks forever, because `write`/`read` hold the
non-reentrant lock while evaluating the `is_connected` property, which
re-acquires it.  Evaluated at the failing input: a fresh manager after
`disconnect()`, then `write(b"A")` / `read(4)`. -/
theorem C1_io_after_disconnect_deadlocks_not_NotConnected :
    (SerialManager.init none).disconnect false = Res.ok () (SerialManager.init none)
    ∧ (SerialManager.init none).is_connected = Res.ok false (SerialManager.init none)
    ∧ (SerialManager.init none).write [65] (Except.ok ()) = Res.deadlock
    ∧ (SerialManager.init none).read 4 (Except.ok [13]) = Res.deadlock :=
  ⟨rfl, rfl, rfl, rfl⟩

/-- Claim C2: in every state and for every input, a single call to
`write` or `read` neither returns nor raises: it blocks forever, since
both methods acquire the non-reentrant guard and then evaluate the
`is_connected` property, which tries to acquire the same guard again. -/
theorem C2_write_read_always_deadlock (s : SerialManager) (data : List Nat)
    (io : Except String Unit) (n : Nat) (io' : Except String (List Nat)) :
    s.write data io = Res.deadlock ∧ s.read n io' = Res.deadlock :=
  ⟨write_deadlock s data io, read_deadlock s n io'⟩

/-- Claim C3, counterexample: with the capability unavailable,
`connect("")` does not fail with `InvalidArgument` — the capability
check comes first, so it fails with `CapabilityUnavailable`. -/
theorem C3_counterexample_no_capability_empty_port :
    failsWith ((SerialManager.init none).connect false "" (Except.ok ()))
      isInvalidArgument = false
    ∧ failsWith ((SerialManager.init none).connect false "" (Except.ok ()))
      isCapabilityUnavailable = true := by
  constructor <;> rfl

/-- Claim C3 as amended: when the capability is available, `connect("")`
fails with `InvalidArgument` from every state and under every open
environment; when it is unavailable, `connect("")` fails with
`CapabilityUnavailable` instead (the capability check precedes the
argument check). -/
theorem C3_amended_empty_port (s : SerialManager) (openRes : Except String Unit) :
    s.connect true "" openRes = Res.exn (PyExc.valueError "Port is empty.") s
    ∧ s.connect false "" openRes
        = Res.exn (PyExc.runtimeError "pyserial is not installed.") s :=
  ⟨connect_empty_port s openRes, connect_no_capability s "" openRes⟩

/-- Claim C4: in every state reachable by any sequence of public calls,
the single handle slot (`_ser` — the model has exactly one slot per
instance, so at most one handle exists) is either absent or holds an
open handle; a closed-but-retained handle never occurs. -/
theorem C4_handle_absent_or_open (hs : Bool) (s : SerialManager)
    (hr : Reachable hs s) :
    s.ser = none ∨ ∃ h, s.ser = some h ∧ h.is_open = true :=
  (reachable_handleInv hs s hr).2

/-- Witness for C4 at a concrete reachable state: a fresh manager after
one successful `connect("COM3")`. -/
theorem C4_witness :
    sConnected.ser = none ∨ ∃ h, sConnected.ser = some h ∧ h.is_open = true :=
  C4_handle_absent_or_open true sConnected
    (Reachable.step (SerialManager.init none) (SMOp.connect "COM3" (Except.ok ()))
      sConnected (Reachable.init none) (by decide))

/-- Claim C5: from any quiescent state, `connect(port)` with a valid
port and a succeeding open succeeds; calling it again immediately
succeeds with the state unchanged and independently of what a second
open would do (no reopen is attempted), and exactly one open handle
results. -/
theorem C5_connect_idempotent (s : SerialManager) (port : String)
    (openRes' : Except String Unit) (hlock : s.lockHeld = false)
    (hport : port ≠ "") :
    ∃ s1, s.connect true port (Except.ok ()) = Res.ok () s1
      ∧ s1.connect true port openRes' = Res.ok () s1
      ∧ ∃ h, s1.ser = some h ∧ h.is_open = true := by
  by_cases hch : serPresentOpen s.ser
  · refine ⟨s, connect_already s port _ hlock hport hch,
      connect_already s port _ hlock hport hch, ?_⟩
    cases hs' : s.ser with
    | none => rw [hs'] at hch; simp [serPresentOpen] at hch
    | some h =>
        rw [hs'] at hch
        exact ⟨h, rfl, by simpa [serPresentOpen] using hch⟩
  · have hch' : serPresentOpen s.ser = false := by simpa using hch
    refine ⟨_, connect_opens s port hlock hport hch', ?_, ⟨_, rfl, rfl⟩⟩
    exact connect_already _ port _ hlock hport rfl

/-- Witness for C5: a fresh manager, port `"COM3"`, with the second
open environment even set to fail — the second call still succeeds
because no reopen is attempted. -/
theorem C5_witness :
    ∃ s1, (SerialManager.init none).connect true "COM3" (Except.ok ()) = Res.ok () s1
      ∧ s1.connect true "COM3" (Except.error "open failed") = Res.ok () s1
      ∧ ∃ h, s1.ser = some h ∧ h.is_open = true :=
  C5_connect_idempotent (SerialManager.init none) "COM3"
    (Except.error "open failed") rfl (by decide)

/-- Claim C6: from any quiescent disconnected state, if the underlying
open fails during `connect`, the call fails with the propagated open
exception carrying the underlying cause (the spec's `DeviceOpenError`),
and the state — in particular the absent handle — is unchanged. -/
theorem C6_open_failure_propagates_cause (s : SerialManager) (port cause : String)
    (hlock : s.lockHeld = false) (hser : s.ser = none) (hport : port ≠ "") :
    s.connect true port (Except.error cause)
      = Res.exn (PyExc.serialException cause) s :=
  connect_open_fails s port cause hlock hport (by rw [hser]; rfl)

/-- Witness for C6: a fresh manager, port `"COM3"`, with the open
raising `"could not open port"`. -/
theorem C6_witness :
    (SerialManager.init none).connect true "COM3" (Except.error "could not open port")
      = Res.exn (PyExc.serialException "could not open port") (SerialManager.init none) :=
  C6_open_failure_propagates_cause (SerialManager.init none) "COM3"
    "could not open port" rfl rfl (by decide)

/-- Claim C7: from any quiescent state, `disconnect()` returns normally
whether or not the underlying `close` raises (the close error is
suppressed), and always clears the handle to absent; on a
never-connected manager it is a no-op that does not fail. -/
theorem C7_disconnect_never_fails (s : SerialManager) (closeRaises : Bool)
    (hlock : s.lockHeld = false) :
    s.disconnect closeRaises = Res.ok () { s with ser := none }
    ∧ ∀ cfg, (SerialManager.init cfg).disconnect closeRaises
        = Res.ok () (SerialManager.init cfg) :=
  ⟨disconnect_eq s closeRaises hlock,
   fun cfg => disconnect_eq (SerialManager.init cfg) closeRaises rfl⟩

/-- Witness for C7: a connected manager whose `close` raises — the call
still returns normally with the handle cleared. -/
theorem C7_witness :
    sConnected.disconnect true = Res.ok () { sConnected with ser := none }
    ∧ ∀ cfg, (SerialManager.init cfg).disconnect true
        = Res.ok () (SerialManager.init cfg) :=
  C7_disconnect_never_fails sConnected true rfl

/-- Claim C8: when the transport capability is unavailable,
`connect(port)` fails with `CapabilityUnavailable` for every port and
independently of the open environment (no device access is attempted:
the result does not mention `openRes`), and `is_connected` is false in
every reachable state. -/
theorem C8_no_capability_connect_fails_never_connected (s : SerialManager)
    (port : String) (openRes : Except String Unit) (hr : Reachable false s) :
    s.connect false port openRes
      = Res.exn (PyExc.runtimeError "pyserial is not installed.") s
    ∧ s.is_connected = Res.ok false s := by
  obtain ⟨hser, hlock⟩ := reachable_noSerial s hr
  refine ⟨connect_no_capability s port openRes, ?_⟩
  rw [is_connected_eq s hlock, hser]
  rfl

/-- Witness for C8: a fresh manager without the serial capability. -/
theorem C8_witness :
    (SerialManager.init none).connect false "COM3" (Except.ok ())
      = Res.exn (PyExc.runtimeError "pyserial is not installed.") (SerialManager.init none)
    ∧ (SerialManager.init none).is_connected
      = Res.ok false (SerialManager.init none) :=
  C8_no_capability_connect_fails_never_connected (SerialManager.init none)
    "COM3" (Except.ok ()) (Reachable.init none)

/-- Claim C9: `list_ports_blocking` never surfaces an error: in every
state it returns normally leaving the state unchanged, it returns the
empty list when the capability is unavailable, and it returns the empty
list when the underlying enumeration raises. -/
theorem C9_list_ports_never_errors (s : SerialManager) (hs : Bool)
    (env : Except String (List String)) (cause : String) :
    (∃ devices, s.list_ports_blocking hs env = Res.ok devices s)
    ∧ s.list_ports_blocking false env = Res.ok [] s
    ∧ s.list_ports_blocking hs (Except.error cause) = Res.ok [] s := by
  refine ⟨?_, rfl, ?_⟩
  · cases hs with
    | false => exact ⟨[], rfl⟩
    | true =>
      cases env with
      | error c => exact ⟨[], rfl⟩
      | ok devices => exact ⟨devices, rfl⟩
  · cases hs with
    | false => rfl
    | true => rfl

/-- Claim C10: the configuration is immutable — every public call that
terminates leaves `cfg` exactly as it was — and a default-constructed
manager has baud rate `115200` and read timeout `0.1` seconds (the
rational `1/10`). -/
theorem C10_config_immutable (hs : Bool) (s : SerialManager) (op : SMOp)
    (s' : SerialManager) (h : smStep hs s op = some s') :
    s'.cfg = s.cfg
    ∧ (SerialManager.init none).cfg.baudrate = 115200
    ∧ (SerialManager.init none).cfg.timeout_s = 1/10 :=
  ⟨smStep_cfg hs s op s' h, rfl, by norm_num [SerialManager.init, mkRat, Rat.normalize]⟩

/-- Witness for C10: the `connect("COM3")` step from a fresh manager. -/
theorem C10_witness :
    sConnected.cfg = (SerialManager.init none).cfg
    ∧ (SerialManager.init none).cfg.baudrate = 115200
    ∧ (SerialManager.init none).cfg.timeout_s = 1/10 :=
  C10_config_immutable true (SerialManager.init none)
    (SMOp.connect "COM3" (Except.ok ())) sConnected (by decide)
